import Mathlib

/- Verification development for the scrapexi scrape-job orchestration service.
   The definitions below are shallow embeddings of the Python source:
   `api/index.py` (job orchestrator, aggregator, credit deduction, endpoints),
   `api/local_agentql_service.py` (LLM extraction client, JSON repair) and
   `scraper_service/main.py` (remote browser service, three-tier page-advance
   strategies). External effects (browser navigation, LLM calls, JSON parsing
   of model output) are supplied as oracle parameters; all control flow and
   data manipulation is translated directly from the source. -/

namespace Scrapexi

/-- JSON-like values, the payloads exchanged between the extraction client and
the aggregator. Objects are insertion-ordered key/value lists, matching Python
dict iteration order. -/
inductive JVal where
  | str (s : String)
  | num (n : Int)
  | boolean (b : Bool)
  | null
  | list (xs : List JVal)
  | obj (fs : List (String × JVal))

/-- A per-page extraction payload: a Python dict from field name to value. -/
abbrev Payload := List (String × JVal)

/-- Python `d[k]` read: first binding of `k` in insertion order. -/
def lookup : Payload → String → Option JVal
  | [], _ => none
  | (k', v') :: rest, k => if k' = k then some v' else lookup rest k

/-- Python `d[k] = v`: replace in place if the key exists, else append. -/
def setKey : Payload → String → JVal → Payload
  | [], k, v => [(k, v)]
  | (k', v') :: rest, k, v =>
    if k' = k then (k, v) :: rest else (k', v') :: setKey rest k v

/-- `True` exactly for list values (`isinstance(value, list)`). -/
def isList : JVal → Bool
  | JVal.list _ => true
  | _ => false

/-- The exception text produced when the aggregator calls `.extend` on a
stored value that is not a list. -/
def mergeErrMsg : String := "AttributeError: object has no attribute extend"

/-- One key/value of a page payload merged into the aggregate, from
`api/index.py` lines 501-505: a list value with the key already present calls
`.extend` on the stored value (an exception when the stored value is not a
list); a missing key is added as-is; otherwise the key is left untouched. -/
def mergeKV (acc : Payload) (k : String) (v : JVal) : Except String Payload :=
  match lookup acc k with
  | none => Except.ok (setKey acc k v)
  | some w =>
    match v with
    | JVal.list vs =>
      match w with
      | JVal.list ws => Except.ok (setKey acc k (JVal.list (ws ++ vs)))
      | _ => Except.error mergeErrMsg
    | _ => Except.ok acc

/-- Merge a whole page payload into the aggregate, key by key in page order. -/
def mergePage : Payload → Payload → Except String Payload
  | acc, [] => Except.ok acc
  | acc, (k, v) :: rest =>
    match mergeKV acc k v with
    | Except.error e => Except.error e
    | Except.ok acc2 => mergePage acc2 rest

/-- One loop iteration of the aggregator (`api/index.py` lines 498-505): an
empty (falsy) aggregate is replaced by the page payload, otherwise the page is
merged in. -/
def aggregateStep (acc : Payload) (page : Payload) : Except String Payload :=
  if acc.isEmpty then Except.ok page else mergePage acc page

/-- Fold `aggregateStep` over a page sequence from a given aggregate. -/
def aggregate : Payload → List Payload → Except String Payload
  | acc, [] => Except.ok acc
  | acc, p :: ps =>
    match aggregateStep acc p with
    | Except.error e => Except.error e
    | Except.ok acc2 => aggregate acc2 ps

/-- The full aggregation of an ordered page sequence, starting from the empty
dict as in the source. -/
def aggregateAll (pages : List Payload) : Except String Payload :=
  aggregate [] pages

/-- Python whitespace, the characters removed by `str.strip()`. -/
def isWs (c : Char) : Bool :=
  c = ' ' || c = '\t' || c = '\n' || c = '\r' || c.toNat = 11 || c.toNat = 12

/-- Python `s.strip()`: drop leading and trailing whitespace. -/
def pyStrip (s : String) : String :=
  String.mk (((s.toList.dropWhile isWs).reverse.dropWhile isWs).reverse)

/-- Python `s.endswith(c)` for a one-character suffix. -/
def endsWithChar (s : String) (c : Char) : Bool :=
  s.toList.getLast? = some c

/-- `clean_json_string` from `api/local_agentql_service.py` lines 25-42: strip
whitespace; if the text ends in neither a closing brace nor a closing bracket,
append one closing brace per unmatched opening brace, then one closing bracket
per unmatched opening bracket, in that fixed order. -/
def clean_json_string (s : String) : String :=
  let t := pyStrip s
  if !(endsWithChar t '\x7d') && !(endsWithChar t ']') then
    let braceFix := t.toList.count '\x7b' - t.toList.count '\x7d'
    let bracketFix := t.toList.count '[' - t.toList.count ']'
    t ++ String.mk (List.replicate braceFix '\x7d') ++
      String.mk (List.replicate bracketFix ']')
  else t

/-- The persisted job record (the `jobs` row plus the in-memory cache entry,
which the source keeps in lock-step for the fields modelled here). Missing
columns read as their defaults via `get_job_status` (`pages_scraped` 0,
`data`/`error` absent). -/
structure JobRecord where
  status : String
  data : Option JVal
  pages_scraped : Nat
  item_count : Option Nat
  error : Option String

/-- The record as created at submission: `scrape_endpoint` inserts the row
with status `"running"` (lines 643-653), and `run_scrape_task` initialises the
in-memory entry with status `"running"`, no data, zero pages (line 262). -/
def insertedRecord : JobRecord :=
  { status := "running", data := none, pages_scraped := 0,
    item_count := none, error := none }

/-- Outcome of the local pagination loop (`api/index.py` lines 489-530):
stopped at a cancellation checkpoint, finished (loop exhausted or no next
page), or aborted by an exception escaping the merge. Each outcome carries the
number of pages whose extraction completed. -/
inductive LoopOutcome where
  | cancelled (pagesDone : Nat)
  | finished (agg : Payload) (pagesDone : Nat)
  | crashed (e : String) (pagesDone : Nat)

/-- Oracle for one local job run: what the cancellation flag reads at each
per-page checkpoint (and at the post-loop check), what each page's extraction
returns, and whether the next-button navigation after each page succeeds. -/
structure LocalEnv where
  cancelObserved : Nat → Bool
  cancelAtEnd : Bool
  pageData : Nat → Payload
  nextOk : Nat → Bool

/-- The pagination loop of `run_scrape_task` (lines 489-530). The fuel
argument counts the remaining iterations (`max_pages - i`), so fuel `1` marks
the final page, after which no next-page navigation is attempted. Per
iteration: cancellation checkpoint, extraction + merge, then next-page
navigation whose failure (missing selector, missing element, or click error)
ends pagination with the pages collected so far. -/
def loopPages (env : LocalEnv) : Nat → Nat → Payload → Nat → LoopOutcome
  | 0, _, agg, done => LoopOutcome.finished agg done
  | Nat.succ fuel, i, agg, done =>
    if env.cancelObserved i then LoopOutcome.cancelled done
    else
      match aggregateStep agg (env.pageData i) with
      | Except.error e => LoopOutcome.crashed e done
      | Except.ok agg2 =>
        if fuel = 0 then LoopOutcome.finished agg2 (done + 1)
        else if env.nextOk i then loopPages env fuel (i + 1) agg2 (done + 1)
        else LoopOutcome.finished agg2 (done + 1)

/-- The whole multi-page loop for a job with `max_pages` pages. -/
def runPages (env : LocalEnv) (maxPages : Nat) : LoopOutcome :=
  loopPages env maxPages 0 [] 0

/-- Length of the first list-valued field of a dict, in insertion order
(`for value in result_data.values(): if isinstance(value, list): ...`). -/
def firstListLen : List (String × JVal) → Nat
  | [] => 0
  | (_, JVal.list xs) :: _ => xs.length
  | _ :: rest => firstListLen rest

/-- Item counting after a local run (`api/index.py` lines 548-557): length of
the result if it is a list, else length of its first list-valued field, else
zero. -/
def countItemsLocal : JVal → Nat
  | JVal.list xs => xs.length
  | JVal.obj fs => firstListLen fs
  | _ => 0

/-- The post-loop block of `run_scrape_task` (lines 546-580): if the
cancellation flag is set nothing is persisted; otherwise the item count is
computed, credits are deducted when a user is attached and the count is
positive, and the record is updated to `completed` with data, page count and
item count. The second component is the deduction amount passed to
`update_data_usage` (`none` when no deduction happens). -/
def finishLocal (uid : Option String) (cancelAtEnd : Bool) (agg : Payload)
    (done : Nat) : JobRecord × Option Nat :=
  if cancelAtEnd then ({ insertedRecord with status := "cancelled" }, none)
  else
    let items := countItemsLocal (JVal.obj agg)
    let ded := if uid.isSome && decide (0 < items) then some items else none
    ({ status := "completed", data := some (JVal.obj agg), pages_scraped := done,
       item_count := some items, error := none }, ded)

/-- A full local pagination-mode run of `run_scrape_task`: a cancellation
checkpoint returns with the record exactly as the cancel endpoint left it
(status `"cancelled"`, nothing else written); an escaped exception updates the
record to `failed` with the exception text; a finished loop runs the
completion block. -/
def runLocalTask (env : LocalEnv) (uid : Option String) (maxPages : Nat) :
    JobRecord × Option Nat :=
  match runPages env maxPages with
  | LoopOutcome.cancelled _ => ({ insertedRecord with status := "cancelled" }, none)
  | LoopOutcome.crashed e _ =>
    ({ insertedRecord with status := "failed", error := some e }, none)
  | LoopOutcome.finished agg done => finishLocal uid env.cancelAtEnd agg done

/-- Response body of the remote browser service as read by the delegation
branch of `run_scrape_task` (lines 299-323): a `data` payload, else a raw
`html` payload, else nothing. -/
structure RemoteResp where
  data : Option JVal
  html : Option String

/-- `final_data` computed by the delegation branch: the `data` payload if
present, else a preview object built from the first 500 characters of the raw
html, else nothing. -/
def remoteFinalData (resp : RemoteResp) : Option JVal :=
  match resp.data with
  | some d => some d
  | none =>
    match resp.html with
    | some h => some (JVal.obj [("raw_html_preview", JVal.str (h.take 500 ++ "..."))])
    | none => none

/-- Item counting in the delegation branch (lines 326-339): length of the
result if it is a list; for a dict, the length of its `all` field when that is
a list, otherwise the length of the first list-valued field. -/
def countItemsRemote : JVal → Nat
  | JVal.list xs => xs.length
  | JVal.obj fs =>
    match lookup fs "all" with
    | some (JVal.list xs) => xs.length
    | _ => firstListLen fs
  | _ => 0

/-- `pages_scraped` recorded by the delegation branch (lines 304-315): for a
dict result carrying an `all` key it is `pagination.total_pages` (default 1),
otherwise 1. -/
def remotePagesScraped (resp : RemoteResp) : Nat :=
  match resp.data with
  | some (JVal.obj fs) =>
    match lookup fs "all", lookup fs "pagination" with
    | some _, some (JVal.obj pfs) =>
      match lookup pfs "total_pages" with
      | some (JVal.num n) => n.toNat
      | _ => 1
    | some _, _ => 1
    | none, _ => 1
  | _ => 1

/-- The item count of a delegation-mode response: counted on `final_data`
when present, zero otherwise. -/
def remoteItems (resp : RemoteResp) : Nat :=
  match remoteFinalData resp with
  | some v => countItemsRemote v
  | none => 0

/-- The delegation branch of `run_scrape_task` (lines 270-376): a failed call
to the remote service marks the job `failed` with the error text and deducts
nothing; a successful call counts items, deducts when a user is attached and
the count is positive, and marks the job `completed`. -/
def runRemoteTask (uid : Option String) (call : Except String RemoteResp) :
    JobRecord × Option Nat :=
  match call with
  | Except.error e =>
    let msg := "Remote Service Failed: " ++ e
    ({ insertedRecord with status := "failed", error := some msg }, none)
  | Except.ok resp =>
    let items := remoteItems resp
    let ded := if uid.isSome && decide (0 < items) then some items else none
    ({ status := "completed", data := remoteFinalData resp,
       pages_scraped := remotePagesScraped resp,
       item_count := some items, error := none }, ded)

/-- The status-mutating operations on a job record: `cancel_job` (lines
699-713) writes `"cancelled"` unconditionally; the completion block (lines
546-580) writes `"completed"` only when the flag does not read `"cancelled"`;
the exception handler (lines 582-598) writes `"failed"` unconditionally. -/
inductive JobOp where
  | cancel
  | complete (d : JVal) (p : Nat)
  | fail (msg : String)

/-- Apply one status-mutating operation to the record. -/
def applyOp (r : JobRecord) : JobOp → JobRecord
  | JobOp.cancel => { r with status := "cancelled" }
  | JobOp.complete d p =>
    if r.status = "cancelled" then r
    else { r with status := "completed", data := some d, pages_scraped := p }
  | JobOp.fail m => { r with status := "failed", error := some m }

/-- Apply a sequence of operations in order. -/
def runOps (r : JobRecord) (ops : List JobOp) : JobRecord :=
  ops.foldl applyOp r

/-- The statuses the source ever writes. -/
def statusOk (s : String) : Prop :=
  s = "running" ∨ s = "completed" ∨ s = "failed" ∨ s = "cancelled"

/-- Terminal statuses per the spec. -/
def isTerminal (s : String) : Prop :=
  s = "completed" ∨ s = "failed" ∨ s = "cancelled"

/-- The observable steps of `scrape_endpoint` (lines 601-662) in program
order: insert the job row, schedule the background task, answer the caller. -/
inductive SubmitAction where
  | dbInsert (status : String)
  | scheduleBackground
  | respond (jobId : String) (status : String)
deriving DecidableEq

/-- `scrape_endpoint`: the row is inserted with status `"running"` before the
background task is scheduled, and the response body carries status
`"queued"`. -/
def scrapeEndpointTrace (jobId : String) : List SubmitAction :=
  [SubmitAction.dbInsert "running", SubmitAction.scheduleBackground,
   SubmitAction.respond jobId "queued"]

/-- A browser cookie as far as normalization is concerned: its optional
`sameSite` attribute plus the remaining attributes, which are untouched. -/
structure Cookie where
  sameSite : Option String
  attrs : List (String × String)
deriving DecidableEq

/-- The untyped `session_json` payload: either a bare cookie array or a
storage-state object with an optional `cookies` key and other entries
(origins), which are untouched. -/
inductive SessionJson where
  | cookieArray (cs : List Cookie)
  | storageState (cookies : Option (List Cookie)) (origins : List String)
deriving DecidableEq

/-- ASCII lower-casing of one character, Python `str.lower` on the ASCII
range the cookie attribute values live in. -/
def lowerChar (c : Char) : Char :=
  if 65 ≤ c.toNat ∧ c.toNat ≤ 90 then Char.ofNat (c.toNat + 32) else c

/-- ASCII lower-casing of a string. -/
def lowerStr (s : String) : String :=
  String.mk (s.toList.map lowerChar)

/-- The `sameSite` repair chain from `run_scrape_task` lines 248-259 (repeated
verbatim in `scraper_service/main.py` lines 268-281): map the extension-style
values and any casing of lax/strict/none onto Playwright's three canonical
values, drop anything else. -/
def sameSiteMap (v : String) : Option String :=
  if v = "no_restriction" ∨ v = "unspecified" then some "None"
  else if lowerStr v = "lax" then some "Lax"
  else if lowerStr v = "strict" then some "Strict"
  else if lowerStr v = "none" then some "None"
  else if v = "Strict" ∨ v = "Lax" ∨ v = "None" then some v
  else none

/-- Normalize an optional `sameSite` attribute; an absent attribute stays
absent. -/
def normSameSite : Option String → Option String
  | none => none
  | some v => sameSiteMap v

/-- Normalize one cookie. -/
def normalizeCookie (c : Cookie) : Cookie :=
  { sameSite := normSameSite c.sameSite, attrs := c.attrs }

/-- The full session normalization (lines 240-259): a bare cookie array is
wrapped into a storage-state object, then every cookie under the `cookies`
key has its `sameSite` attribute repaired. -/
def normalizeSession : SessionJson → SessionJson
  | SessionJson.cookieArray cs =>
    SessionJson.storageState (some (cs.map normalizeCookie)) []
  | SessionJson.storageState none os => SessionJson.storageState none os
  | SessionJson.storageState (some cs) os =>
    SessionJson.storageState (some (cs.map normalizeCookie)) os

/-- Python result of a call: a returned value or a propagated exception. -/
inductive PyResult (α : Type) where
  | ok (a : α)
  | raised (msg : String)

/-- `True` exactly when the call raised. -/
def isRaised : PyResult JVal → Bool
  | PyResult.raised _ => true
  | _ => false

/-- Oracle for one extraction call: whether `GOOGLE_API_KEY` is set, and what
the LLM request does (returned text, or a raised transport/safety error). -/
structure GeminiEnv where
  apiKey : Option String
  apiResult : Except String String

/-- Python `s.split(sep)[i]`, with splitting as `String.splitOn`. -/
def pyPart (s sep : String) (i : Nat) : String :=
  (s.splitOn sep).getD i ""

/-- Python substring containment `sub in s`. -/
def containsSub (s sub : String) : Bool :=
  decide (2 ≤ (s.splitOn sub).length)

/-- Markdown-fence stripping from `query_data_with_gemini` lines 118-121: the
text between the first fence pair, preferring a ```json fence. -/
def stripMarkdown (s : String) : String :=
  if containsSub s "```json" then pyPart (pyPart s "```json" 1) "```" 0
  else if containsSub s "```" then pyPart (pyPart s "```" 1) "```" 0
  else s

/-- The double-quote character, written by code point. -/
def dquoteChar : Char := Char.ofNat 34

/-- One attempted regex match of `"([^"]+)":` just after an opening quote:
take the non-quote run, then require a closing quote followed by a colon. -/
def takeKey (cs : List Char) : Option (String × List Char) :=
  let inner := cs.takeWhile (fun c => c ≠ dquoteChar)
  match cs.dropWhile (fun c => c ≠ dquoteChar) with
  | c1 :: c2 :: rest2 =>
    if c1 = dquoteChar && c2 = ':' && !inner.isEmpty then
      some (String.mk inner, rest2)
    else none
  | _ => none

/-- Left-to-right non-overlapping scan for `"([^"]+)":` occurrences, the
embedding of `re.finditer` in the truncation-hint heuristic. Fuel bounds the
scan by the text length. -/
def scanKeys : Nat → List Char → List String
  | 0, _ => []
  | _, [] => []
  | fuel + 1, c :: rest =>
    if c = dquoteChar then
      match takeKey rest with
      | some (k, rest2) => k :: scanKeys fuel rest2
      | none => scanKeys fuel rest
    else scanKeys fuel rest

/-- The last `"<key>":` occurrence in the raw response text. -/
def lastKey (s : String) : Option String :=
  (scanKeys s.length s.toList).getLast?

/-- The truncation hint appended to a parse-error message
(`query_data_with_gemini` lines 131-141). -/
def hintedError (e rt : String) : String :=
  if containsSub e "Unterminated string" || containsSub e "Expecting value" then
    match lastKey rt with
    | some k =>
      e ++ " (HINT: The response was likely truncated while processing the field \x27"
        ++ k ++ "\x27. Try removing it from your schema.)"
    | none => e
  else e

/-- `query_data_with_gemini` from `api/local_agentql_service.py` lines 84-143.
A missing API key raises `ValueError` outside the try block; inside the try,
an API error is caught and returned as an error payload, and the response text
is fence-stripped, truncation-repaired and handed to the JSON parser (the
`parse` oracle), whose failure is caught and returned as an error payload with
the truncation hint. -/
def query_data_with_gemini (env : GeminiEnv)
    (parse : String → Except String JVal) : PyResult JVal :=
  match env.apiKey with
  | none => PyResult.raised "GOOGLE_API_KEY is not set"
  | some _ =>
    match env.apiResult with
    | Except.error e => PyResult.ok (JVal.obj [("error", JVal.str e)])
    | Except.ok raw =>
      let t := clean_json_string (stripMarkdown raw)
      match parse t with
      | Except.ok v => PyResult.ok v
      | Except.error e =>
        PyResult.ok (JVal.obj [("error", JVal.str (hintedError e t))])

/-- `extract_with_gemini` from `scraper_service/main.py` lines 197-232: a
missing API key returns an error payload; everything else sits in one try
whose handler returns an error payload, so no path raises. -/
def extract_with_gemini (env : GeminiEnv)
    (parse : String → Except String JVal) : PyResult JVal :=
  match env.apiKey with
  | none =>
    PyResult.ok (JVal.obj
      [("error", JVal.str "Google API Key not configured on Scraper Service")])
  | some _ =>
    match env.apiResult with
    | Except.error e =>
      PyResult.ok (JVal.obj [("error", JVal.str ("AI Extraction Failed: " ++ e))])
    | Except.ok raw =>
      let t := ((raw.replace "```json" "").replace "```" "").trim
      match parse t with
      | Except.ok v => PyResult.ok v
      | Except.error e =>
        PyResult.ok (JVal.obj [("error", JVal.str ("AI Extraction Failed: " ++ e))])

/-- The three page-advance strategies of `scraper_service/main.py`
lines 379-438, in priority order. -/
inductive Strategy where
  | patternUrl
  | nextButton
  | urlHeuristic
deriving DecidableEq

/-- Result of one page-transition attempt: navigation succeeded via some
strategy, or all applicable strategies were exhausted. -/
inductive TransResult where
  | navigated (s : Strategy)
  | exhausted
deriving DecidableEq

/-- Oracle for one page transition: whether example URLs were supplied,
what the pattern learner returned, whether navigating to its prediction
succeeded, what the next-button finder returned, whether the click succeeded,
and whether navigating to the heuristic URL succeeded. -/
structure TransEnv where
  examplesConfigured : Bool
  learnedUrl : Option String
  learnedNavOk : Bool
  selector : Option String
  clickOk : Bool
  heuristicNavOk : Bool

/-- Strategy 3 (lines 419-438): always attempted once reached; a failed
navigation to the guessed URL breaks pagination. -/
def strategy3 (env : TransEnv) (tr : List Strategy) : List Strategy × TransResult :=
  if env.heuristicNavOk then
    (tr ++ [Strategy.urlHeuristic], TransResult.navigated Strategy.urlHeuristic)
  else (tr ++ [Strategy.urlHeuristic], TransResult.exhausted)

/-- Strategy 2 (lines 404-417): look for a next button; a missing selector or
a failed click falls through to strategy 3. -/
def strategy2 (env : TransEnv) (tr : List Strategy) : List Strategy × TransResult :=
  match env.selector with
  | some _ =>
    if env.clickOk then
      (tr ++ [Strategy.nextButton], TransResult.navigated Strategy.nextButton)
    else strategy3 env (tr ++ [Strategy.nextButton])
  | none => strategy3 env (tr ++ [Strategy.nextButton])

/-- One page-transition attempt (lines 379-438), with the list of strategies
tried in order. Strategy 1 runs only when both example URLs are configured;
a missing prediction or a failed navigation falls through to strategy 2. -/
def attemptNext (env : TransEnv) : List Strategy × TransResult :=
  if env.examplesConfigured then
    match env.learnedUrl with
    | some _ =>
      if env.learnedNavOk then ([Strategy.patternUrl], TransResult.navigated Strategy.patternUrl)
      else strategy2 env [Strategy.patternUrl]
    | none => strategy2 env [Strategy.patternUrl]
  else strategy2 env []

/-- Oracle for a remote multi-page run: each page's captured content and each
transition's environment. -/
structure RemoteEnv where
  pageContent : Nat → String
  trans : Nat → TransEnv

/-- The remote scrape loop (lines 362-438): collect the page's content; if
this is not the last page, attempt a transition, and stop collecting when all
strategies are exhausted. -/
def remoteLoop (renv : RemoteEnv) : Nat → Nat → List String → List String
  | 0, _, acc => acc
  | Nat.succ fuel, i, acc =>
    let acc2 := acc ++ [renv.pageContent i]
    if fuel = 0 then acc2
    else
      match (attemptNext (renv.trans i)).2 with
      | TransResult.navigated _ => remoteLoop renv fuel (i + 1) acc2
      | TransResult.exhausted => acc2

/-- The `/scrape` endpoint outcome for the page-collection phase: strategy
exhaustion only breaks the loop, so the endpoint still answers success with
the pages collected so far (lines 440-475). -/
def remoteScrapeResult (renv : RemoteEnv) (pagesToScrape : Nat) :
    Except String (List String) :=
  Except.ok (remoteLoop renv pagesToScrape 0 [])

/-- Modelled from the claim wording of C7 (and spec section 4.4): the number
of items extracted is the length of the first list-valued field of the final
aggregate, or the length of the aggregate if it is itself a list. Kept as a
separate definition so it can be compared against the two counting routines
actually in the source. -/
def specItemCount : JVal → Nat
  | JVal.list xs => xs.length
  | JVal.obj fs => firstListLen fs
  | _ => 0

/-- A simple page payload family: page `i` contributes one item under the
`items` key, the shape the aggregator concatenates across pages. -/
def itemsPage (i : Nat) : Payload :=
  [("items", JVal.list [JVal.num (Int.ofNat i)])]

/-- A five-page run whose cancellation flag is first observed at the
checkpoint before the third page (set between page 2 and page 3). -/
def env5 : LocalEnv :=
  { cancelObserved := fun i => decide (2 ≤ i), cancelAtEnd := false,
    pageData := itemsPage, nextOk := fun _ => true }

/-- A two-page run whose first page stores a scalar under `a` and whose second
page yields a list under `a`, triggering `.extend` on a non-list. -/
def env10 : LocalEnv :=
  { cancelObserved := fun _ => false, cancelAtEnd := false,
    pageData := fun i =>
      if i = 0 then [("a", JVal.num 1)] else [("a", JVal.list [JVal.num 2])],
    nextOk := fun _ => true }

/-- A record already cancelled, as left by the cancellation endpoint. -/
def cancelledRecord : JobRecord :=
  { insertedRecord with status := "cancelled" }

/-- A remote result whose first list-valued field (`x`, 2 items) differs from
its `all` field (1 item). -/
def v0 : JVal :=
  JVal.obj [("x", JVal.list [JVal.num 1, JVal.num 2]), ("all", JVal.list [JVal.num 3])]

/-- A remote service response carrying `v0` as its data payload. -/
def resp0 : RemoteResp := { data := some v0, html := none }

/-- An extraction environment with no `GOOGLE_API_KEY` configured. -/
def envNoKey : GeminiEnv := { apiKey := none, apiResult := Except.error "network error" }

/-- An extraction environment with a key configured and a failing API call. -/
def envWithKey : GeminiEnv := { apiKey := some "k", apiResult := Except.error "HTTP 500" }

/-- A JSON parser oracle that always fails. -/
def parseFail : String → Except String JVal := fun _ => Except.error "Expecting value"

/-- A transition where examples are configured, the predicted URL fails to
navigate, no next button is found, and the heuristic URL also fails. -/
def transEnvW : TransEnv :=
  { examplesConfigured := true, learnedUrl := some "http://site/page/2/",
    learnedNavOk := false, selector := none, clickOk := false,
    heuristicNavOk := false }

/- ### Helper lemmas -/

/-- Every operation keeps the status within the four statuses the source
writes. -/
theorem applyOp_statusOk (r : JobRecord) (op : JobOp) (h : statusOk r.status) :
    statusOk (applyOp r op).status := by
  cases op with
  | cancel => simp [applyOp, statusOk]
  | complete d p =>
    by_cases hc : r.status = "cancelled"
    · simpa [applyOp, hc] using h
    · simp [applyOp, hc, statusOk]
  | fail m => simp [applyOp, statusOk]

/-- Status containment is preserved along any operation sequence. -/
theorem runOps_statusOk (ops : List JobOp) (r : JobRecord) (h : statusOk r.status) :
    statusOk (runOps r ops).status := by
  induction ops generalizing r with
  | nil => exact h
  | cons op ops ih => exact ih (applyOp r op) (applyOp_statusOk r op h)

theorem sameSiteMap_none : normSameSite (some "None") = some "None" := by decide

theorem sameSiteMap_lax : normSameSite (some "Lax") = some "Lax" := by decide

theorem sameSiteMap_strict : normSameSite (some "Strict") = some "Strict" := by decide

/-- The `sameSite` repair is idempotent: each of its outputs is a fixed
point. -/
theorem normSameSite_idem (o : Option String) :
    normSameSite (normSameSite o) = normSameSite o := by
  cases o with
  | none => rfl
  | some v =>
    show normSameSite (sameSiteMap v) = sameSiteMap v
    unfold sameSiteMap
    split_ifs with h1 h2 h3 h4 h5
    · exact sameSiteMap_none
    · exact sameSiteMap_lax
    · exact sameSiteMap_strict
    · exact sameSiteMap_none
    · rcases h5 with h | h | h <;> subst h
      · exact sameSiteMap_strict
      · exact sameSiteMap_lax
      · exact sameSiteMap_none
    · rfl

/-- Normalizing a cookie twice equals normalizing it once. -/
theorem normalizeCookie_idem (c : Cookie) :
    normalizeCookie (normalizeCookie c) = normalizeCookie c := by
  simp [normalizeCookie, normSameSite_idem]

/-- Normalizing a cookie list twice equals normalizing it once. -/
theorem mapCookies_idem (cs : List Cookie) :
    (cs.map normalizeCookie).map normalizeCookie = cs.map normalizeCookie := by
  induction cs with
  | nil => rfl
  | cons c cs ih => simp [normalizeCookie_idem, ih]

/-- Under a cancellation flag first observed at checkpoint `k`, well-behaved
single-key pages and successful next-page navigation, the loop reaches
checkpoint `k` with exactly `k` pages done and stops there. -/
theorem loopPages_cancelled (env : LocalEnv) (k : Nat)
    (hc : ∀ i, env.cancelObserved i = decide (k ≤ i))
    (hp : ∀ i, env.pageData i = itemsPage i)
    (hn : ∀ i, env.nextOk i = true) :
    ∀ (fuel i done : Nat) (agg : Payload),
      i ≤ k → k < i + fuel →
      (agg = [] ∨ ∃ ys, agg = [("items", JVal.list ys)]) →
      loopPages env fuel i agg done = LoopOutcome.cancelled (done + (k - i)) := by
  intro fuel
  induction fuel with
  | zero => intro i done agg h1 h2 _; omega
  | succ fuel ih =>
    intro i done agg h1 h2 hagg
    by_cases hki : k ≤ i
    · have hcb : env.cancelObserved i = true := by
        rw [hc i]; exact decide_eq_true hki
      have hzero : k - i = 0 := by omega
      rw [hzero]
      simp [loopPages, hcb]
    · have hcb : env.cancelObserved i = false := by
        rw [hc i]; exact decide_eq_false hki
      have hfuel : fuel ≠ 0 := by omega
      have hstep : ∃ ys2, aggregateStep agg (env.pageData i) =
          Except.ok [("items", JVal.list ys2)] := by
        rcases hagg with h | ⟨ys, h⟩ <;> subst h
        · exact ⟨[JVal.num (Int.ofNat i)], by simp [hp i, aggregateStep, itemsPage]⟩
        · refine ⟨ys ++ [JVal.num (Int.ofNat i)], ?_⟩
          simp [hp i, aggregateStep, itemsPage, mergePage, mergeKV, lookup, setKey]
      rcases hstep with ⟨ys2, hstep⟩
      have hrec := ih (i + 1) (done + 1) [("items", JVal.list ys2)]
        (by omega) (by omega) (Or.inr ⟨ys2, rfl⟩)
      calc loopPages env (fuel + 1) i agg done
          = loopPages env fuel (i + 1) [("items", JVal.list ys2)] (done + 1) := by
            simp [loopPages, hcb, hstep, hfuel, hn i]
        _ = LoopOutcome.cancelled ((done + 1) + (k - (i + 1))) := hrec
        _ = LoopOutcome.cancelled (done + (k - i)) := by congr 1; omega

/- ### Claim theorems -/

/-- Claim C9: cookie/session normalization is idempotent — for every
`session_json` value, wrapping a bare cookie array and repairing every
cookie's `sameSite` attribute twice yields the same result as doing it
once. -/
theorem C9_normalization_idempotent (s : SessionJson) :
    normalizeSession (normalizeSession s) = normalizeSession s := by
  cases s with
  | cookieArray cs => simp only [normalizeSession, mapCookies_idem]
  | storageState oc os => cases oc <;> simp only [normalizeSession, mapCookies_idem]

/-- Claim C1, counterexample: a job completed via the orchestrator is in the
terminal status `completed`, yet a cancellation request arriving afterwards
overwrites that terminal status with `cancelled`; so a terminal status is not
immutable, contrary to the claim. -/
theorem C1_counterexample :
    isTerminal (runOps insertedRecord [JobOp.complete (JVal.obj []) 1]).status ∧
    (runOps insertedRecord [JobOp.complete (JVal.obj []) 1]).status = "completed" ∧
    (runOps insertedRecord [JobOp.complete (JVal.obj []) 1, JobOp.cancel]).status
      = "cancelled" ∧
    ("cancelled" : String) ≠ "completed" :=
  ⟨Or.inl rfl, rfl, rfl, by decide⟩

/-- Claim C1, amended: every status a job ever holds is `running` or one of
the three terminal statuses `completed`, `failed`, `cancelled`, and the
orchestrator's completion update never overwrites a `cancelled` status; but
terminal statuses are not immutable — the cancellation endpoint overwrites any
status, terminal ones included, with `cancelled` unconditionally. -/
theorem C1_terminal_amended :
    (∀ ops : List JobOp,
        (runOps insertedRecord ops).status = "running" ∨
          isTerminal (runOps insertedRecord ops).status) ∧
    (∀ (r : JobRecord) (d : JVal) (p : Nat), r.status = "cancelled" →
        applyOp r (JobOp.complete d p) = r) ∧
    (∀ r : JobRecord, (applyOp r JobOp.cancel).status = "cancelled") := by
  refine ⟨?_, ?_, ?_⟩
  · intro ops
    have h := runOps_statusOk ops insertedRecord (Or.inl rfl)
    rcases h with h | h | h | h
    · exact Or.inl h
    · exact Or.inr (Or.inl h)
    · exact Or.inr (Or.inr (Or.inl h))
    · exact Or.inr (Or.inr (Or.inr h))
  · intro r d p h
    simp [applyOp, h]
  · intro r
    rfl

/-- Claim C1, witness: the completion guard applied to a concrete cancelled
record leaves it untouched. -/
theorem C1_witness : applyOp cancelledRecord (JobOp.complete JVal.null 0) = cancelledRecord :=
  C1_terminal_amended.2.1 cancelledRecord JVal.null 0 rfl

/-- Claim C3: the merge of an ordered sequence of page payloads — the first
page is the base of the aggregation; a later page is merged key by key; a key
whose incoming and stored values are both lists is concatenated in page order;
a key not yet present is added as-is; and a key present on both sides with
non-list values keeps the first-seen value (the merge returns the aggregate
unchanged). -/
theorem C3_aggregator_merge :
    (∀ (first : Payload) (rest : List Payload),
        aggregateAll (first :: rest) = aggregate first rest) ∧
    (∀ (acc page : Payload), acc ≠ [] → aggregateStep acc page = mergePage acc page) ∧
    (∀ (acc : Payload) (k : String) (vs ws : List JVal),
        lookup acc k = some (JVal.list ws) →
        mergeKV acc k (JVal.list vs) = Except.ok (setKey acc k (JVal.list (ws ++ vs)))) ∧
    (∀ (acc : Payload) (k : String) (v : JVal),
        lookup acc k = none → mergeKV acc k v = Except.ok (setKey acc k v)) ∧
    (∀ (acc : Payload) (k : String) (v w : JVal),
        lookup acc k = some w → isList v = false → isList w = false →
        mergeKV acc k v = Except.ok acc) := by
  refine ⟨?_, ?_, ?_, ?_, ?_⟩
  · intro first rest
    rfl
  · intro acc page h
    have he : acc.isEmpty = false := by
      cases acc with
      | nil => exact absurd rfl h
      | cons a l => rfl
    simp [aggregateStep, he]
  · intro acc k vs ws h
    simp [mergeKV, h]
  · intro acc k v h
    simp [mergeKV, h]
  · intro acc k v w h hv hw
    cases v <;> simp_all [mergeKV, isList, h]

/-- Claim C3, witness: merging a one-item list page into an aggregate already
holding a one-item list under the same key concatenates them in page order. -/
theorem C3_witness :
    mergeKV [("items", JVal.list [JVal.num 1])] "items" (JVal.list [JVal.num 2]) =
      Except.ok [("items", JVal.list [JVal.num 1, JVal.num 2])] := by
  have h := C3_aggregator_merge.2.2.1 [("items", JVal.list [JVal.num 1])] "items"
    [JVal.num 2] [JVal.num 1] rfl
  simpa [setKey] using h

/-- Claim C2, counterexample: in a five-page job whose cancellation flag is
set between page 2 and page 3, the loop stops at the checkpoint before page 3
with exactly two pages processed, the status is `cancelled` and no data is
persisted — but the job's recorded `pages_scraped` is `0`, not `2` as the
claim states: the cancellation path returns without writing the page count. -/
theorem C2_counterexample :
    runPages env5 5 = LoopOutcome.cancelled 2 ∧
    (runLocalTask env5 (some "u") 5).1.status = "cancelled" ∧
    (runLocalTask env5 (some "u") 5).1.data = none ∧
    (runLocalTask env5 (some "u") 5).1.pages_scraped = 0 ∧
    ¬ (runLocalTask env5 (some "u") 5).1.pages_scraped = 2 :=
  ⟨rfl, rfl, rfl, rfl, by decide⟩

/-- Claim C2, amended: a cancellation flag first observed at the checkpoint
before page `k+1` of a larger job stops the orchestrator at that checkpoint
with exactly `k` pages processed; the job's status is `cancelled` and no data
from the discarded aggregate is persisted; however the recorded `pages_scraped`
stays at its initial `0` — the number of pages actually processed is not
persisted on cancellation. -/
theorem C2_cancellation_amended (env : LocalEnv) (uid : Option String)
    (maxPages k : Nat) (hk : k < maxPages)
    (hc : ∀ i, env.cancelObserved i = decide (k ≤ i))
    (hp : ∀ i, env.pageData i = itemsPage i)
    (hn : ∀ i, env.nextOk i = true) :
    runPages env maxPages = LoopOutcome.cancelled k ∧
    (runLocalTask env uid maxPages).1.status = "cancelled" ∧
    (runLocalTask env uid maxPages).1.data = none ∧
    (runLocalTask env uid maxPages).1.pages_scraped = 0 ∧
    (runLocalTask env uid maxPages).2 = none := by
  have h0 : runPages env maxPages = LoopOutcome.cancelled (0 + (k - 0)) :=
    loopPages_cancelled env k hc hp hn maxPages 0 0 [] (Nat.zero_le k)
      (by omega) (Or.inl rfl)
  have h1 : runPages env maxPages = LoopOutcome.cancelled k := by simpa using h0
  refine ⟨h1, ?_, ?_, ?_, ?_⟩ <;> simp [runLocalTask, h1, insertedRecord]

/-- Claim C2, witness: the amended statement instantiated on the concrete
five-page job cancelled between pages 2 and 3. -/
theorem C2_witness :
    runPages env5 5 = LoopOutcome.cancelled 2 ∧
    (runLocalTask env5 (some "w") 5).1.status = "cancelled" ∧
    (runLocalTask env5 (some "w") 5).1.data = none ∧
    (runLocalTask env5 (some "w") 5).1.pages_scraped = 0 ∧
    (runLocalTask env5 (some "w") 5).2 = none :=
  C2_cancellation_amended env5 (some "w") 5 2 (by decide)
    (fun _ => rfl) (fun _ => rfl) (fun _ => rfl)

/-- Claim C4: evaluating the truncation repair at the spec's own example. The
repair appends every missing closing brace before any missing closing bracket,
so `\x7b"a": [1, 2` becomes `\x7b"a": [1, 2\x7d]` — not the valid
`\x7b"a": [1, 2]\x7d` the claim promises; the no-op half of the claim (input
already ending in a closing brace) does hold. -/
theorem C4_truncation_repair_eval :
    clean_json_string "\x7b\"a\": [1, 2" = "\x7b\"a\": [1, 2\x7d]" ∧
    clean_json_string "\x7b\"a\": [1, 2" ≠ "\x7b\"a\": [1, 2]\x7d" ∧
    clean_json_string "\x7b\"a\": 1\x7d" = "\x7b\"a\": 1\x7d" := by
  refine ⟨by decide, by decide, by decide⟩

/-- Claim C10: the per-page merge is not total — when the stored value for a
shared key is not a list and a later page yields a list for it, the merge
raises instead of absorbing the error as page data, and the escaped exception
transitions the whole job to `failed` with the exception text, persisting no
data and deducting nothing. -/
theorem C10_merge_not_total (acc : Payload) (k : String) (w : JVal)
    (vs : List JVal) (env : LocalEnv) (uid : Option String) (n d : Nat)
    (e : String) (h1 : lookup acc k = some w) (h2 : isList w = false)
    (h3 : runPages env n = LoopOutcome.crashed e d) :
    mergeKV acc k (JVal.list vs) = Except.error mergeErrMsg ∧
    (runLocalTask env uid n).1.status = "failed" ∧
    (runLocalTask env uid n).1.error = some e ∧
    (runLocalTask env uid n).1.data = none ∧
    (runLocalTask env uid n).2 = none := by
  refine ⟨?_, ?_, ?_, ?_, ?_⟩
  · cases w <;> simp_all [mergeKV, isList]
  all_goals simp [runLocalTask, h3, insertedRecord]

/-- Claim C10, witness: the concrete two-page job whose first page stores a
scalar under `a` and whose second page yields a list under `a` crashes the
merge and fails the job. -/
theorem C10_witness :
    mergeKV [("a", JVal.num 1)] "a" (JVal.list [JVal.num 2]) =
      Except.error mergeErrMsg ∧
    (runLocalTask env10 (some "u") 2).1.status = "failed" ∧
    (runLocalTask env10 (some "u") 2).1.error = some mergeErrMsg ∧
    (runLocalTask env10 (some "u") 2).1.data = none ∧
    (runLocalTask env10 (some "u") 2).2 = none :=
  C10_merge_not_total [("a", JVal.num 1)] "a" (JVal.num 1) [JVal.num 2]
    env10 (some "u") 2 1 mergeErrMsg rfl rfl rfl

/-- Claim C5: with example URLs configured and the pattern-learned URL's
navigation failing, the very next attempt is the next-button strategy; the
URL heuristic is attempted only after the button strategy fails (missing
selector or click failure); with all three failing the transition reports
exhaustion; exhaustion merely stops the remote loop with the pages already
collected, and the page-collection phase never fails the job. -/
theorem C5_strategy_fallback (env : TransEnv) (u : String)
    (h1 : env.examplesConfigured = true)
    (h2 : env.learnedUrl = some u)
    (h3 : env.learnedNavOk = false) :
    (attemptNext env).1.take 2 = [Strategy.patternUrl, Strategy.nextButton] ∧
    ((env.selector = none ∨ env.clickOk = false) →
       (attemptNext env).1 =
         [Strategy.patternUrl, Strategy.nextButton, Strategy.urlHeuristic]) ∧
    ((env.selector = none ∨ env.clickOk = false) → env.heuristicNavOk = false →
       (attemptNext env).2 = TransResult.exhausted) ∧
    (∀ (renv : RemoteEnv) (fuel i : Nat) (acc : List String),
       (attemptNext (renv.trans i)).2 = TransResult.exhausted →
       remoteLoop renv (fuel + 2) i acc = acc ++ [renv.pageContent i]) ∧
    (∀ (renv : RemoteEnv) (n : Nat),
       ∃ pages, remoteScrapeResult renv n = Except.ok pages) := by
  have hA : attemptNext env = strategy2 env [Strategy.patternUrl] := by
    simp [attemptNext, h1, h2, h3]
  refine ⟨?_, ?_, ?_, ?_, ?_⟩
  · rw [hA]
    cases hs : env.selector with
    | none => cases hh : env.heuristicNavOk <;> simp [strategy2, strategy3, hs, hh]
    | some s =>
      cases hcl : env.clickOk with
      | true => simp [strategy2, hs, hcl]
      | false => cases hh : env.heuristicNavOk <;> simp [strategy2, strategy3, hs, hcl, hh]
  · intro hfail
    rw [hA]
    rcases hfail with hs | hcl
    · cases hh : env.heuristicNavOk <;> simp [strategy2, strategy3, hs, hh]
    · cases hs : env.selector with
      | none => cases hh : env.heuristicNavOk <;> simp [strategy2, strategy3, hs, hh]
      | some s => cases hh : env.heuristicNavOk <;>
          simp [strategy2, strategy3, hs, hcl, hh]
  · intro hfail hh
    rw [hA]
    rcases hfail with hs | hcl
    · simp [strategy2, strategy3, hs, hh]
    · cases hs : env.selector with
      | none => simp [strategy2, strategy3, hs, hh]
      | some s => simp [strategy2, strategy3, hs, hcl, hh]
  · intro renv fuel i acc hx
    simp [remoteLoop, hx]
  · intro renv n
    exact ⟨remoteLoop renv n 0 [], rfl⟩

/-- Claim C5, witness: the fallback chain instantiated on a concrete
transition where the predicted URL fails, no next button exists and the
heuristic URL fails too. -/
theorem C5_witness :
    (attemptNext transEnvW).1.take 2 = [Strategy.patternUrl, Strategy.nextButton] ∧
    (attemptNext transEnvW).1 =
      [Strategy.patternUrl, Strategy.nextButton, Strategy.urlHeuristic] ∧
    (attemptNext transEnvW).2 = TransResult.exhausted := by
  have h := C5_strategy_fallback transEnvW "http://site/page/2/" rfl rfl rfl
  exact ⟨h.1, h.2.1 (Or.inl rfl), h.2.2.1 (Or.inl rfl) rfl⟩

/-- Claim C6, counterexample: with no `GOOGLE_API_KEY` configured, the api
service's extraction client raises `ValueError` to its caller instead of
returning an error payload, contrary to the claim that no input makes it
raise. -/
theorem C6_counterexample :
    query_data_with_gemini envNoKey parseFail =
      PyResult.raised "GOOGLE_API_KEY is not set" ∧
    isRaised (query_data_with_gemini envNoKey parseFail) = true :=
  ⟨rfl, rfl⟩

/-- Claim C6, amended: with an API key configured, the api service's
extraction client never raises — API transport errors and JSON parse failures
after repair all come back as error payloads; the scraper service's extraction
client never raises on any input; but a missing API key makes the api
service's client raise `ValueError`. -/
theorem C6_no_raise_amended :
    (∀ (env : GeminiEnv) (parse : String → Except String JVal) (kk : String),
        env.apiKey = some kk →
        isRaised (query_data_with_gemini env parse) = false) ∧
    (∀ (env : GeminiEnv) (parse : String → Except String JVal),
        isRaised (extract_with_gemini env parse) = false) ∧
    (∀ (env : GeminiEnv) (parse : String → Except String JVal),
        env.apiKey = none →
        query_data_with_gemini env parse =
          PyResult.raised "GOOGLE_API_KEY is not set") := by
  refine ⟨?_, ?_, ?_⟩
  · intro env parse kk h
    obtain ⟨ak, ar⟩ := env
    cases h
    cases ar with
    | error e => rfl
    | ok raw =>
      cases hp : parse (clean_json_string (stripMarkdown raw)) <;>
        simp [query_data_with_gemini, hp, isRaised]
  · intro env parse
    obtain ⟨ak, ar⟩ := env
    cases ak with
    | none => rfl
    | some kk =>
      cases ar with
      | error e => rfl
      | ok raw =>
        cases hp : parse (((raw.replace "```json" "").replace "```" "").trim) <;>
          simp [extract_with_gemini, hp, isRaised]
  · intro env parse h
    obtain ⟨ak, ar⟩ := env
    cases h
    rfl

/-- Claim C6, witness: with a key configured and a failing API call, the api
service's client returns instead of raising. -/
theorem C6_witness :
    isRaised (query_data_with_gemini envWithKey parseFail) = false :=
  C6_no_raise_amended.1 envWithKey parseFail "k" rfl

/-- Claim C7, counterexample: for a completed delegation-mode job whose result
carries both a first list-valued field `x` of length 2 and an `all` field of
length 1, the deducted amount is 1 (the `all` length), not the length of the
first list-valued field as the claim states. -/
theorem C7_counterexample :
    (runRemoteTask (some "u") (Except.ok resp0)).2 = some 1 ∧
    specItemCount v0 = 2 ∧
    ¬ (runRemoteTask (some "u") (Except.ok resp0)).2 = some (specItemCount v0) :=
  ⟨rfl, rfl, by decide⟩

/-- Claim C7, amended: deduction happens only on the success path and only for
a strictly positive item count — a cancelled or failed local job deducts
nothing, a zero-item completion deducts nothing, and when a deduction happens
its amount equals the job's computed item count; that count is the length of
the first list-valued field (or the aggregate length if it is a list) in local
mode, while in delegation mode the `all` field's length takes precedence when
present as a list. -/
theorem C7_deduction_amended :
    (∀ (env : LocalEnv) (uid : Option String) (n d : Nat),
        runPages env n = LoopOutcome.cancelled d →
        (runLocalTask env uid n).2 = none) ∧
    (∀ (env : LocalEnv) (uid : Option String) (n d : Nat) (e : String),
        runPages env n = LoopOutcome.crashed e d →
        (runLocalTask env uid n).2 = none ∧
          (runLocalTask env uid n).1.status = "failed") ∧
    (∀ (env : LocalEnv) (uid : Option String) (n d : Nat) (agg : Payload),
        runPages env n = LoopOutcome.finished agg d →
        countItemsLocal (JVal.obj agg) = 0 →
        (runLocalTask env uid n).2 = none) ∧
    (∀ (env : LocalEnv) (uid : Option String) (n m : Nat),
        (runLocalTask env uid n).2 = some m →
        0 < m ∧ (runLocalTask env uid n).1.status = "completed" ∧
          (runLocalTask env uid n).1.item_count = some m) ∧
    (∀ (env : LocalEnv) (uid : Option String) (n d m : Nat) (agg : Payload),
        runPages env n = LoopOutcome.finished agg d →
        (runLocalTask env uid n).2 = some m →
        m = countItemsLocal (JVal.obj agg)) ∧
    (∀ (uid : Option String) (e : String),
        (runRemoteTask uid (Except.error e)).2 = none) ∧
    (∀ (uid : Option String) (resp : RemoteResp) (m : Nat),
        (runRemoteTask uid (Except.ok resp)).2 = some m →
        0 < m ∧ (runRemoteTask uid (Except.ok resp)).1.status = "completed" ∧
          m = remoteItems resp) := by
  refine ⟨?_, ?_, ?_, ?_, ?_, ?_, ?_⟩
  · intro env uid n d h
    simp [runLocalTask, h]
  · intro env uid n d e h
    simp [runLocalTask, h]
  · intro env uid n d agg h hz
    by_cases hcae : env.cancelAtEnd = true <;>
      simp [runLocalTask, h, finishLocal, hcae, hz]
  · intro env uid n m h
    cases hrp : runPages env n with
    | cancelled d => simp [runLocalTask, hrp] at h
    | crashed e d => simp [runLocalTask, hrp] at h
    | finished agg d =>
      by_cases hcae : env.cancelAtEnd = true
      · have hnone : (runLocalTask env uid n).2 = none := by
          simp [runLocalTask, hrp, finishLocal, hcae]
        rw [hnone] at h
        cases h
      · by_cases hcond :
            (uid.isSome && decide (0 < countItemsLocal (JVal.obj agg))) = true
        · have h2 : (runLocalTask env uid n).2 =
              some (countItemsLocal (JVal.obj agg)) := by
            simp [runLocalTask, hrp, finishLocal, hcae, hcond]
          have hm : countItemsLocal (JVal.obj agg) = m := by
            rw [h2] at h
            exact Option.some.inj h
          obtain ⟨hu, hpos⟩ := Bool.and_eq_true_iff.mp hcond
          refine ⟨?_, ?_, ?_⟩
          · rw [← hm]
            exact of_decide_eq_true hpos
          · simp [runLocalTask, hrp, finishLocal, hcae]
          · have hic : (runLocalTask env uid n).1.item_count =
                some (countItemsLocal (JVal.obj agg)) := by
              simp [runLocalTask, hrp, finishLocal, hcae]
            rw [hic, hm]
        · have hnone : (runLocalTask env uid n).2 = none := by
            simp [runLocalTask, hrp, finishLocal, hcae, hcond]
          rw [hnone] at h
          cases h
  · intro env uid n d m agg h hded
    by_cases hcae : env.cancelAtEnd = true
    · have hnone : (runLocalTask env uid n).2 = none := by
        simp [runLocalTask, h, finishLocal, hcae]
      rw [hnone] at hded
      cases hded
    · by_cases hcond :
          (uid.isSome && decide (0 < countItemsLocal (JVal.obj agg))) = true
      · have h2 : (runLocalTask env uid n).2 =
            some (countItemsLocal (JVal.obj agg)) := by
          simp [runLocalTask, h, finishLocal, hcae, hcond]
        rw [h2] at hded
        exact (Option.some.inj hded).symm
      · have hnone : (runLocalTask env uid n).2 = none := by
          simp [runLocalTask, h, finishLocal, hcae, hcond]
        rw [hnone] at hded
        cases hded
  · intro uid e
    rfl
  · intro uid resp m h
    by_cases hcond : (uid.isSome && decide (0 < remoteItems resp)) = true
    · have h2 : (runRemoteTask uid (Except.ok resp)).2 = some (remoteItems resp) := by
        simp [runRemoteTask, hcond]
      have hm : remoteItems resp = m := by
        rw [h2] at h
        exact Option.some.inj h
      obtain ⟨hu, hpos⟩ := Bool.and_eq_true_iff.mp hcond
      refine ⟨?_, ?_, hm.symm⟩
      · rw [← hm]
        exact of_decide_eq_true hpos
      · simp [runRemoteTask]
    · have hnone : (runRemoteTask uid (Except.ok resp)).2 = none := by
        simp [runRemoteTask, hcond]
      rw [hnone] at h
      cases h

/-- Claim C7, witness: the cancelled five-page job deducts nothing. -/
theorem C7_witness : (runLocalTask env5 (some "u") 5).2 = none :=
  C7_deduction_amended.1 env5 (some "u") 5 2 rfl

/-- Claim C8, counterexample: the job row is inserted with status `"running"`,
not `"queued"` as the claim states. -/
theorem C8_counterexample :
    (scrapeEndpointTrace "job-1").head? = some (SubmitAction.dbInsert "running") ∧
    ¬ (scrapeEndpointTrace "job-1").head? = some (SubmitAction.dbInsert "queued") :=
  ⟨rfl, by decide⟩

/-- Claim C8, amended: the job record is created synchronously — the row is
inserted before the background task is scheduled — and the caller immediately
receives the job id with a response whose status field says `"queued"`; but
the persisted record is born with status `"running"` (never `"queued"`), and
the in-memory entry the background task creates when it begins also starts at
`"running"`. -/
theorem C8_submission_amended (jobId : String) :
    (∀ s, SubmitAction.dbInsert s ∈ scrapeEndpointTrace jobId → s = "running") ∧
    (scrapeEndpointTrace jobId).indexOf (SubmitAction.dbInsert "running") <
      (scrapeEndpointTrace jobId).indexOf SubmitAction.scheduleBackground ∧
    SubmitAction.respond jobId "queued" ∈ scrapeEndpointTrace jobId ∧
    insertedRecord.status = "running" := by
  refine ⟨?_, ?_, ?_, rfl⟩
  · intro s hm
    simp [scrapeEndpointTrace] at hm
    exact hm
  · have h1 : (scrapeEndpointTrace jobId).indexOf (SubmitAction.dbInsert "running") = 0 := rfl
    have h2 : (scrapeEndpointTrace jobId).indexOf SubmitAction.scheduleBackground = 1 := rfl
    rw [h1, h2]
    decide
  · simp [scrapeEndpointTrace]

/-- Claim C8, witness: the amended statement instantiated on a concrete job
id, discharging the trace-membership hypothesis. -/
theorem C8_witness :
    ("running" : String) = "running" ∧
    SubmitAction.respond "job-1" "queued" ∈ scrapeEndpointTrace "job-1" :=
  ⟨(C8_submission_amended "job-1").1 "running" (by simp [scrapeEndpointTrace]),
   (C8_submission_amended "job-1").2.2.1⟩

end Scrapexi
